import Mathlib

/-!
Shallow embedding of the session/credential subsystem of the repository
(`k8s_ai/utils/cluster_sessions.py` and `k8s_ai/utils/k8s_client.py`).

Modelling conventions:
* Python `float` time values (TTL hours, timestamps) are modelled as `ℚ`;
  every value the claims exercise is exactly representable, and the only
  operations used (`+`, `<`, `>`) are exact on them.
* `datetime.utcnow()` is modelled by an explicit `now : ℚ` parameter,
  held fixed for the duration of one registry operation; the time unit is
  hours, so `expires_at = now + ttl_hours` models
  `utcnow() + timedelta(hours=ttl_hours)`.
* Python exceptions become an `Err` sum: `ValueError` (which in CPython
  also covers `binascii.Error` and `UnicodeDecodeError`), `KeyError` from
  a missing dict key, and `OSError` from a failed file open.
* The filesystem read in the file-referenced credential branches is an
  explicit `fs : String → Option String` argument (path to contents;
  `none` models `FileNotFoundError`).
* YAML parsing (`yaml.safe_load`) is external to the repository; its
  outcome is passed in as `Except String Kubeconfig` (error message or
  parsed document).
* Python dicts that hold the kubeconfig are modelled by structures whose
  fields are `Option` when the source accesses them fallibly (`d["k"]`
  raising `KeyError`, or `"k" in d` guards); fields the claims never
  exercise as missing (entry names, the `context` sub-dict) are plain.
-/

namespace K8sAi

/-! ### Base64 (`base64.b64decode`) and UTF-8 (`bytes.decode("utf-8")`) -/

/-- Value of one character of the standard base64 alphabet, `none` for a
character outside the alphabet. -/
def b64CharVal (c : Char) : Option Nat :=
  if 'A' ≤ c ∧ c ≤ 'Z' then some (c.toNat - 65)
  else if 'a' ≤ c ∧ c ≤ 'z' then some (c.toNat - 97 + 26)
  else if '0' ≤ c ∧ c ≤ '9' then some (c.toNat - 48 + 52)
  else if c = '+' then some 62
  else if c = '/' then some 63
  else none

/-- Decode base64 quanta of four characters into bytes; the final quantum
may carry one or two padding characters.  Malformed input (including the
cases where CPython raises `binascii.Error`) yields `none`. -/
def b64Quanta : List Char → Option (List Nat)
  | [] => some []
  | c1 :: c2 :: c3 :: c4 :: rest =>
    match b64CharVal c1, b64CharVal c2 with
    | some a, some b =>
      if c3 = '=' then
        if c4 = '=' ∧ rest = [] then some [a * 4 + b / 16] else none
      else
        match b64CharVal c3 with
        | some c =>
          if c4 = '=' then
            if rest = [] then some [a * 4 + b / 16, b % 16 * 16 + c / 4] else none
          else
            match b64CharVal c4 with
            | some d =>
              match b64Quanta rest with
              | some bs => some ((a * 4 + b / 16) :: (b % 16 * 16 + c / 4) :: (c % 4 * 64 + d) :: bs)
              | none => none
            | none => none
        | none => none
    | _, _ => none
  | _ => none

/-- `base64.b64decode` with default arguments: characters outside the
alphabet are discarded before decoding (CPython keeps `=`). -/
def b64decodeBytes (s : String) : Option (List Nat) :=
  b64Quanta (s.data.filter (fun c => (b64CharVal c).isSome || c = '='))

/-- Is the byte a UTF-8 continuation byte? -/
def utf8Cont (b : Nat) : Bool := decide (128 ≤ b) && decide (b ≤ 191)

/-- Strict UTF-8 decoding of a byte list (rejecting overlong forms,
surrogates and out-of-range code points), as `bytes.decode("utf-8")`;
failure models `UnicodeDecodeError`. -/
def utf8Decode : List Nat → Option (List Char)
  | [] => some []
  | b :: bs =>
    if b < 128 then
      match utf8Decode bs with
      | some cs => some (Char.ofNat b :: cs)
      | none => none
    else if 194 ≤ b ∧ b ≤ 223 then
      match bs with
      | b1 :: bs1 =>
        if utf8Cont b1 then
          match utf8Decode bs1 with
          | some cs => some (Char.ofNat ((b - 192) * 64 + (b1 - 128)) :: cs)
          | none => none
        else none
      | [] => none
    else if 224 ≤ b ∧ b ≤ 239 then
      match bs with
      | b1 :: b2 :: bs1 =>
        if (decide ((if b = 224 then 160 else 128) ≤ b1)
            && decide (b1 ≤ (if b = 237 then 159 else 191))
            && utf8Cont b2) then
          match utf8Decode bs1 with
          | some cs =>
            some (Char.ofNat ((b - 224) * 4096 + (b1 - 128) * 64 + (b2 - 128)) :: cs)
          | none => none
        else none
      | _ => none
    else if 240 ≤ b ∧ b ≤ 244 then
      match bs with
      | b1 :: b2 :: b3 :: bs1 =>
        if (decide ((if b = 240 then 144 else 128) ≤ b1)
            && decide (b1 ≤ (if b = 244 then 143 else 191))
            && utf8Cont b2 && utf8Cont b3) then
          match utf8Decode bs1 with
          | some cs =>
            some (Char.ofNat ((b - 240) * 262144 + (b1 - 128) * 4096
              + (b2 - 128) * 64 + (b3 - 128)) :: cs)
          | none => none
        else none
      | _ => none
    else none

/-- `base64.b64decode(s).decode("utf-8")`, the composite the source applies
to inline certificate/CA data; `none` models the raised exception. -/
def decodeB64Utf8 (s : String) : Option String :=
  (b64decodeBytes s).bind (fun bs => (utf8Decode bs).map (fun cs => String.mk cs))

/-! ### Data model -/

/-- `KubernetesCredentials` (`k8s_client.py`): the resolved credential
bundle.  `nspace` models the Python field `namespace` (a Lean keyword). -/
structure KubernetesCredentials where
  api_server : String
  token : String
  ca_certificate : String
  nspace : String
  client_cert : String
  client_key : String
deriving Repr, DecidableEq

/-- The `context` sub-dict of a kubeconfig context entry:
`{"cluster": ..., "user": ..., "namespace": ...?}`. -/
structure ContextSpec where
  cluster : String
  user : String
  nspace : Option String
deriving Repr, DecidableEq

/-- One element of the kubeconfig `contexts` list. -/
structure ContextEntry where
  name : String
  context : ContextSpec
deriving Repr, DecidableEq

/-- The `cluster` sub-dict of a kubeconfig cluster entry; every field is
accessed fallibly by the source (`cluster_info["server"]` raises
`KeyError`, the CA fields sit behind `in` guards). -/
structure ClusterInfo where
  server : Option String
  certificateAuthorityData : Option String
  certificateAuthority : Option String
deriving Repr, DecidableEq

/-- One element of the kubeconfig `clusters` list. -/
structure ClusterEntry where
  name : String
  cluster : ClusterInfo
deriving Repr, DecidableEq

/-- The `user` sub-dict of a kubeconfig user entry; all five keys sit
behind `in` guards in the source, so presence (even with an empty string
value) is what matters. -/
structure UserInfo where
  token : Option String
  clientCertificateData : Option String
  clientKeyData : Option String
  clientCertificate : Option String
  clientKey : Option String
deriving Repr, DecidableEq

/-- One element of the kubeconfig `users` list. -/
structure UserEntry where
  name : String
  user : UserInfo
deriving Repr, DecidableEq

/-- A parsed kubeconfig document.  The source reads the three lists with
`kubeconfig.get(key, [])` and the default context with
`kubeconfig.get("current-context")`. -/
structure Kubeconfig where
  contexts : List ContextEntry
  clusters : List ClusterEntry
  users : List UserEntry
  currentContext : Option String
deriving Repr, DecidableEq

/-- Python exception outcomes relevant to the subsystem:
`valueError` covers `ValueError` and its subclasses (`binascii.Error`,
`UnicodeDecodeError`), `keyError` a missing dict key, `ioError` a failed
file open. -/
inductive Err where
  | valueError (msg : String)
  | keyError (key : String)
  | ioError (path : String)
deriving Repr, DecidableEq

/-- Is the error a `ValueError` (the type the spec calls
`ValidationError`/`ConfigurationError`)? -/
def Err.isValueError : Err → Bool
  | .valueError _ => true
  | _ => false

/-- The filesystem visible to credential extraction: path to contents,
`none` for a missing file. -/
def FS : Type := String → Option String

/-! ### Credential extraction
(`ClusterSessionManager._extract_credentials_from_kubeconfig`) -/

/-- Context resolution (lines 133-150 of `cluster_sessions.py`): pick the
context by explicit name or by the document's `current-context`.  The
source guard is `if context_name:` (Python truthiness), so `none` here
models both `None` and the falsy empty string. -/
def resolveContext (kc : Kubeconfig) (context_name : Option String) :
    Except Err ContextEntry :=
  match context_name with
  | some n =>
    match kc.contexts.find? (fun ctx => ctx.name == n) with
    | some ctx => .ok ctx
    | none => .error (.valueError ("Context \x27" ++ n ++ "\x27 not found in kubeconfig"))
  | none =>
    match kc.currentContext with
    | none => .error (.valueError "No current-context in kubeconfig and no context specified")
    | some cur =>
      match kc.contexts.find? (fun ctx => ctx.name == cur) with
      | some ctx => .ok ctx
      | none => .error (.valueError ("Current context \x27" ++ cur ++ "\x27 not found"))

/-- CA-certificate handling (lines 177-186): inline base64 data wins over
a file reference; neither present gives the empty string. -/
def resolveCa (fs : FS) (cluster_info : ClusterInfo) : Except Err String :=
  match cluster_info.certificateAuthorityData with
  | some d =>
    match decodeB64Utf8 d with
    | some s => .ok s
    | none => .error (.valueError "Invalid base64-encoded string")
  | none =>
    match cluster_info.certificateAuthority with
    | some path =>
      match fs path with
      | some content => .ok content
      | none => .error (.ioError path)
    | none => .ok ""

/-- User-credential handling (lines 188-210): bearer token first, then the
inline certificate/key pair, then the file-referenced pair, else failure.
Returns `(token, client_cert, client_key)`. -/
def resolveAuth (fs : FS) (user_info : UserInfo) :
    Except Err (String × String × String) :=
  match user_info.token with
  | some t => .ok (t, "", "")
  | none =>
    match user_info.clientCertificateData, user_info.clientKeyData with
    | some cd, some kd =>
      match decodeB64Utf8 cd with
      | none => .error (.valueError "Invalid base64-encoded string")
      | some c =>
        match decodeB64Utf8 kd with
        | none => .error (.valueError "Invalid base64-encoded string")
        | some k => .ok ("", c, k)
    | _, _ =>
      match user_info.clientCertificate, user_info.clientKey with
      | some cp, some kp =>
        match fs cp with
        | none => .error (.ioError cp)
        | some c =>
          match fs kp with
          | none => .error (.ioError kp)
          | some k => .ok ("", c, k)
      | _, _ => .error (.valueError "No supported authentication method found in kubeconfig")

/-- `_extract_credentials_from_kubeconfig` (lines 129-219): resolve the
context, look up the cluster and user it names, read the server address
(`cluster_info["server"]`, a bare dict access that raises `KeyError` when
absent), the CA material and the auth material. -/
def extractCredentials (fs : FS) (kc : Kubeconfig) (context_name : Option String) :
    Except Err KubernetesCredentials :=
  match resolveContext kc context_name with
  | .error e => .error e
  | .ok context =>
    let cluster_name := context.context.cluster
    let user_name := context.context.user
    let nspace := context.context.nspace.getD "default"
    match kc.clusters.find? (fun c => c.name == cluster_name) with
    | none => .error (.valueError ("Cluster \x27" ++ cluster_name ++ "\x27 not found in kubeconfig"))
    | some cluster =>
      match kc.users.find? (fun u => u.name == user_name) with
      | none => .error (.valueError ("User \x27" ++ user_name ++ "\x27 not found in kubeconfig"))
      | some user =>
        let cluster_info := cluster.cluster
        match cluster_info.server with
        | none => .error (.keyError "server")
        | some api_server =>
          match resolveCa fs cluster_info with
          | .error e => .error e
          | .ok ca_certificate =>
            match resolveAuth fs user.user with
            | .error e => .error e
            | .ok (token, client_cert, client_key) =>
              .ok { api_server := api_server, token := token,
                    ca_certificate := ca_certificate, nspace := nspace,
                    client_cert := client_cert, client_key := client_key }

/-! ### Dynamic client handle (`DynamicKubernetesClient`, `k8s_client.py`)

Reference identity of Python objects is modelled by allocation identifiers
drawn from a `World` counter; effects on resources outside the process
(disposal of the transport pool) are modelled by a `World` counter of
released pools. -/

/-- Ambient state: the allocation counter giving fresh object identities,
and the count of transport pools released so far. -/
structure World where
  nextId : Nat
  poolsReleased : Nat
deriving Repr, DecidableEq

/-- `kubernetes.client.Configuration` as populated by
`_create_configuration` (lines 52-81 of `k8s_client.py`).  The temp files
the source writes certificates into are modelled by the contents written
(`cert_file`, `key_file`, `ssl_ca_cert` hold the material, not a path). -/
structure ClientConfiguration where
  host : String
  api_key : Option String
  cert_file : Option String
  key_file : Option String
  ssl_ca_cert : Option String
  verify_ssl : Bool
deriving Repr, DecidableEq

/-- The external `kubernetes.client.api_client.ApiClient`: its
configuration and whether its transport pool is still live. -/
structure ApiClientM where
  config : ClientConfiguration
  poolLive : Bool
deriving Repr, DecidableEq

/-- `DynamicKubernetesClient`: holds the credentials and the lazily
created `_api_client` slot (`__init__` sets it to `None`); `cid` is the
object's allocation identity. -/
structure DynamicK8sClient where
  cid : Nat
  credentials : KubernetesCredentials
  api_client : Option ApiClientM
deriving Repr, DecidableEq

/-- `_create_configuration` (lines 52-81): bearer token wins over the
certificate pair (both guarded by Python string truthiness), then CA
material or `verify_ssl = False`. -/
def create_configuration (c : KubernetesCredentials) : ClientConfiguration :=
  let conf0 : ClientConfiguration :=
    { host := c.api_server, api_key := none, cert_file := none,
      key_file := none, ssl_ca_cert := none, verify_ssl := true }
  let conf1 :=
    if c.token ≠ "" then { conf0 with api_key := some ("Bearer " ++ c.token) }
    else if c.client_cert ≠ "" ∧ c.client_key ≠ "" then
      { conf0 with cert_file := some c.client_cert, key_file := some c.client_key }
    else conf0
  if c.ca_certificate ≠ "" then { conf1 with ssl_ca_cert := some c.ca_certificate }
  else { conf1 with verify_ssl := false }

/-- `get_api_client` (lines 83-88): memoize the `ApiClient` built from
`_create_configuration`. -/
def get_api_client (w : World) (cl : DynamicK8sClient) :
    ApiClientM × World × DynamicK8sClient :=
  match cl.api_client with
  | some a => (a, w, cl)
  | none =>
    let a : ApiClientM := { config := create_configuration cl.credentials, poolLive := true }
    (a, w, { cl with api_client := some a })

/-- Modelled from the spec: the body of the external kubernetes library's
`ApiClient.close` is not part of this repository; §4.3 specifies release
as an "idempotent no-op if already released", so closing disposes the
transport pool exactly when it is still live. -/
def apiClientClose (w : World) (a : ApiClientM) : World × ApiClientM :=
  if a.poolLive then
    ({ w with poolsReleased := w.poolsReleased + 1 }, { a with poolLive := false })
  else (w, a)

/-- `DynamicKubernetesClient.close` (lines 149-152): close the underlying
`ApiClient` if one was materialized (`if self._api_client:`); the slot
itself is not cleared. -/
def DynamicK8sClient.close (w : World) (cl : DynamicK8sClient) :
    World × DynamicK8sClient :=
  match cl.api_client with
  | none => (w, cl)
  | some a =>
    let p := apiClientClose w a
    (p.1, { cl with api_client := some p.2 })

/-! ### Session (`ClusterSession`, `cluster_sessions.py` lines 12-54) -/

/-- `ClusterSession`: token, cluster name, credentials, expiry, creation
time, and the memoized `_k8s_client` slot (`None` at construction). -/
structure SessionS where
  session_token : String
  cluster_name : String
  credentials : KubernetesCredentials
  expires_at : ℚ
  created_at : ℚ
  k8s_client : Option DynamicK8sClient
deriving Repr, DecidableEq

/-- `ClusterSession.is_expired` (lines 29-31): `utcnow() > expires_at`. -/
def is_expired (now : ℚ) (s : SessionS) : Bool := decide (s.expires_at < now)

/-- `ClusterSession.get_k8s_client` (lines 33-37): construct a
`DynamicKubernetesClient` from the session's credentials on first use,
memoize it, and return the memoized object thereafter. -/
def get_k8s_client (w : World) (s : SessionS) :
    DynamicK8sClient × World × SessionS :=
  match s.k8s_client with
  | some c => (c, w, s)
  | none =>
    let c : DynamicK8sClient :=
      { cid := w.nextId, credentials := s.credentials, api_client := none }
    (c, { w with nextId := w.nextId + 1 }, { s with k8s_client := some c })

/-- `ClusterSession.cleanup` (lines 39-42): close the client if one was
constructed (`if self._k8s_client:`); the memoized slot is not cleared. -/
def SessionS.cleanup (w : World) (s : SessionS) : World × SessionS :=
  match s.k8s_client with
  | none => (w, s)
  | some c =>
    let p := DynamicK8sClient.close w c
    (p.1, { s with k8s_client := some p.2 })

/-- `ClusterSession.to_dict` (lines 44-54) projected for API responses;
timestamps are kept as raw model times (the source serializes them to ISO
strings). -/
structure SessionSummary where
  session_token : String
  cluster_name : String
  api_server : String
  nspace : String
  created_at : ℚ
  expires_at : ℚ
  is_expired_flag : Bool
deriving Repr, DecidableEq

/-- Build the summary dictionary of a session. -/
def SessionS.to_dict (now : ℚ) (s : SessionS) : SessionSummary :=
  { session_token := s.session_token, cluster_name := s.cluster_name,
    api_server := s.credentials.api_server, nspace := s.credentials.nspace,
    created_at := s.created_at, expires_at := s.expires_at,
    is_expired_flag := is_expired now s }

/-! ### Session registry (`ClusterSessionManager`, lines 57-232)

`self._sessions : dict[str, ClusterSession]` is modelled as an
insertion-ordered association list, matching CPython dict semantics
(unique keys; assignment to a present key replaces in place, otherwise
appends; `pop` removes the entry). -/

/-- The `_sessions` mapping. -/
abbrev RegState : Type := List (String × SessionS)

/-- The keys of the mapping. -/
def regKeys (st : RegState) : List String := st.map (fun e => e.1)

/-- `self._sessions.get(token)`. -/
def lookupTok (st : RegState) (tok : String) : Option SessionS :=
  (List.find? (fun e => e.1 == tok) st).map (fun e => e.2)

/-- `self._sessions.pop(token, None)`, the state part: remove the entry
with the given key (keys are unique in a dict). -/
def popTok (st : RegState) (tok : String) : RegState :=
  match st with
  | [] => []
  | e :: rest => if e.1 == tok then rest else e :: popTok rest tok

/-- `self._sessions[token] = session`: dict assignment (replace in place
if present, else append). -/
def dictInsert (k : String) (v : SessionS) (st : RegState) : RegState :=
  match st with
  | [] => [(k, v)]
  | e :: rest => if e.1 == k then (k, v) :: rest else e :: dictInsert k v rest

/-- `unregister_cluster` (lines 116-122): pop the session; when one was
present, run its `cleanup` (a `World` effect) and report `True`. -/
def unregister_cluster (w : World) (st : RegState) (tok : String) :
    Bool × World × RegState :=
  match lookupTok st tok with
  | some s =>
    let p := SessionS.cleanup w s
    (true, p.1, popTok st tok)
  | none => (false, w, st)

/-- The `for token in expired_tokens: self.unregister_cluster(token)` loop
of `_cleanup_expired_sessions`, as a fold over the collected tokens. -/
def unregisterFold (ts : List String) (p : World × RegState) : World × RegState :=
  ts.foldl
    (fun acc t => ((unregister_cluster acc.1 acc.2 t).2.1, (unregister_cluster acc.1 acc.2 t).2.2))
    p

/-- `_cleanup_expired_sessions` (lines 225-232): collect the tokens of
expired sessions, then unregister each. -/
def cleanup_expired_sessions (now : ℚ) (w : World) (st : RegState) :
    World × RegState :=
  unregisterFold ((st.filter (fun e => is_expired now e.2)).map (fun e => e.1)) (w, st)

/-- `get_session` (lines 108-114): exact-token lookup; a found-but-expired
session is unregistered and reported as absent. -/
def get_session (now : ℚ) (w : World) (st : RegState) (tok : String) :
    Option SessionS × World × RegState :=
  match lookupTok st tok with
  | some s =>
    if is_expired now s then
      let p := unregister_cluster w st tok
      (none, p.2.1, p.2.2)
    else (some s, w, st)
  | none => (none, w, st)

/-- `list_sessions` (lines 124-127): sweep expired sessions, then project
every remaining session through `to_dict` in table order. -/
def list_sessions (now : ℚ) (w : World) (st : RegState) :
    List SessionSummary × World × RegState :=
  let p := cleanup_expired_sessions now w st
  (p.2.map (fun e => SessionS.to_dict now e.2), p.1, p.2)

/-- The message of the TTL validation error raised by `register_cluster`
(line 73). -/
def ttlMsg : String := "TTL cannot exceed 168 hours (7 days)"

/-- `register_cluster` (lines 63-106): validate the TTL (upper bound
only), parse the kubeconfig (parse outcome supplied by the caller, the
external `yaml.safe_load`), extract credentials, store the new session
under the freshly generated token (`new_token`, the value produced by
`_generate_session_token`), and sweep expired sessions. -/
def register_cluster (now : ℚ) (fs : FS) (new_token : String) (w : World)
    (st : RegState) (cluster_name : String)
    (kubeconfig_parse : Except String Kubeconfig) (context : Option String)
    (ttl_hours : ℚ) : Except Err String × World × RegState :=
  if 168 < ttl_hours then (.error (.valueError ttlMsg), w, st)
  else
    match kubeconfig_parse with
    | .error e => (.error (.valueError ("Invalid kubeconfig YAML: " ++ e)), w, st)
    | .ok kubeconfig =>
      match extractCredentials fs kubeconfig context with
      | .error e => (.error e, w, st)
      | .ok credentials =>
        let expires_at := now + ttl_hours
        let session : SessionS :=
          { session_token := new_token, cluster_name := cluster_name,
            credentials := credentials, expires_at := expires_at,
            created_at := now, k8s_client := none }
        let st1 := dictInsert new_token session st
        let p := cleanup_expired_sessions now w st1
        (.ok new_token, p.1, p.2)

/-- The registry invariant of §3: no stored session has its expiry in the
past. -/
def noExpired (now : ℚ) (st : RegState) : Prop :=
  ∀ e ∈ st, is_expired now e.2 = false

/-- Iterated calls of `get_k8s_client` on the same session, collecting the
identities of the returned handles (harness for stating the memoization
property over sequential call sequences). -/
def get_calls : Nat → World → SessionS → List Nat × World × SessionS
  | 0, w, s => ([], w, s)
  | n + 1, w, s =>
    let p := get_k8s_client w s
    let q := get_calls n p.2.1 p.2.2
    (p.1.cid :: q.1, q.2)


/-! ### Concrete fixtures used by witnesses and counterexamples -/

/-- An empty filesystem (no file-referenced credentials resolve). -/
def fs0 : FS := fun _ => none

/-- Initial ambient state. -/
def w0 : World := { nextId := 0, poolsReleased := 0 }

/-- A resolved credential bundle fixture. -/
def cred0 : KubernetesCredentials :=
  { api_server := "https://10.0.0.1:6443", token := "abc", ca_certificate := "",
    nspace := "default", client_cert := "", client_key := "" }

/-- A session fixture under token `"a"`, expired at any `now > 0`. -/
def s0 : SessionS :=
  { session_token := "a", cluster_name := "c", credentials := cred0,
    expires_at := 0, created_at := 0, k8s_client := none }

/-- A well-formed kubeconfig fixture: context `ctx-a` references cluster
`prod` (bearer-token user `svc`, no CA material). -/
def kc4 : Kubeconfig :=
  { contexts := [⟨"ctx-a", ⟨"prod", "svc", none⟩⟩],
    clusters := [⟨"prod", ⟨some "https://10.0.0.1:6443", none, none⟩⟩],
    users := [⟨"svc", ⟨some "abc", none, none, none, none⟩⟩],
    currentContext := none }

/-- A kubeconfig fixture whose cluster entry lacks the `server` key. -/
def kc6 : Kubeconfig :=
  { contexts := [⟨"ctx-a", ⟨"prod", "svc", none⟩⟩],
    clusters := [⟨"prod", ⟨none, none, none⟩⟩],
    users := [⟨"svc", ⟨some "abc", none, none, none, none⟩⟩],
    currentContext := none }


/-- A client fixture whose `ApiClient` was materialized and whose pool is
live. -/
def clientW : DynamicK8sClient :=
  { cid := 0, credentials := cred0,
    api_client := some { config := create_configuration cred0, poolLive := true } }

/-- A live (unexpired at `now = 1`) session holding `clientW`. -/
def sW : SessionS :=
  { session_token := "a", cluster_name := "c", credentials := cred0,
    expires_at := 10, created_at := 0, k8s_client := some clientW }

/-! ### Association-list lemmas about the `_sessions` dict model -/

/-- The keys of a cons cell. -/
theorem regKeys_cons (e : String × SessionS) (st : RegState) :
    regKeys (e :: st) = e.1 :: regKeys st := rfl

/-- Membership in the keys of a cons cell. -/
theorem mem_regKeys_cons (x : String) (e : String × SessionS) (st : RegState) :
    x ∈ regKeys (e :: st) ↔ x = e.1 ∨ x ∈ regKeys st := by
  rw [regKeys_cons]; exact List.mem_cons

/-- Key uniqueness of a cons cell, split. -/
theorem nodup_regKeys_cons (e : String × SessionS) (st : RegState) :
    (regKeys (e :: st)).Nodup ↔ e.1 ∉ regKeys st ∧ (regKeys st).Nodup := by
  rw [regKeys_cons, List.nodup_cons]

/-- Unfolding of `lookupTok` on a cons cell. -/
theorem lookupTok_cons (e : String × SessionS) (st : RegState) (tok : String) :
    lookupTok (e :: st) tok = if e.1 == tok then some e.2 else lookupTok st tok := by
  by_cases h : (e.1 == tok) = true
  · rw [lookupTok,
      show List.find? (fun x => x.1 == tok) (e :: st) = some e from
        List.find?_cons_of_pos st h,
      if_pos h]
    rfl
  · rw [lookupTok,
      show List.find? (fun x => x.1 == tok) (e :: st)
          = List.find? (fun x => x.1 == tok) st from
        List.find?_cons_of_neg st h,
      if_neg h]
    rfl

/-- A lookup misses exactly when the token is not a key of the table. -/
theorem lookupTok_eq_none_iff (st : RegState) (tok : String) :
    lookupTok st tok = none ↔ tok ∉ regKeys st := by
  induction st with
  | nil => simp [lookupTok, regKeys]
  | cons e rest ih =>
    rw [lookupTok_cons]
    by_cases h : (e.1 == tok) = true
    · have h' : e.1 = tok := by simpa using h
      simp [h, mem_regKeys_cons, h']
    · have h' : ¬ tok = e.1 := fun hx => h (by simp [hx])
      simp [h, mem_regKeys_cons, ih, h']

/-- `popTok` yields a sublist of the table. -/
theorem popTok_sublist (st : RegState) (tok : String) :
    List.Sublist (popTok st tok) st := by
  induction st with
  | nil => simp [popTok]
  | cons e rest ih =>
    rw [popTok]
    by_cases h : (e.1 == tok) = true
    · simp [h]
    · simp only [h, if_false, Bool.false_eq_true]
      exact List.Sublist.cons₂ e ih

/-- After popping a token from a duplicate-free table, looking it up
misses. -/
theorem lookupTok_popTok_self (st : RegState) (tok : String)
    (h : (regKeys st).Nodup) : lookupTok (popTok st tok) tok = none := by
  induction st with
  | nil => simp [popTok, lookupTok]
  | cons e rest ih =>
    have hn := (nodup_regKeys_cons e rest).mp h
    rw [popTok]
    by_cases hk : (e.1 == tok) = true
    · have hk' : e.1 = tok := by simpa using hk
      rw [if_pos hk]
      exact (lookupTok_eq_none_iff rest tok).mpr (hk' ▸ hn.1)
    · rw [if_neg hk, lookupTok_cons, if_neg hk]
      exact ih hn.2

/-- Keys after a dict assignment come from the old keys or the new key. -/
theorem mem_regKeys_dictInsert (x k : String) (v : SessionS) (st : RegState)
    (h : x ∈ regKeys (dictInsert k v st)) : x ∈ regKeys st ∨ x = k := by
  induction st with
  | nil =>
    rcases (mem_regKeys_cons x (k, v) []).mp (by exact h) with h1 | h1
    · exact .inr h1
    · simp [regKeys] at h1
  | cons e rest ih =>
    rw [dictInsert] at h
    by_cases hk : (e.1 == k) = true
    · rw [if_pos hk] at h
      rcases (mem_regKeys_cons x (k, v) rest).mp h with h1 | h1
      · exact .inr h1
      · exact .inl ((mem_regKeys_cons x e rest).mpr (.inr h1))
    · rw [if_neg hk] at h
      rcases (mem_regKeys_cons x e (dictInsert k v rest)).mp h with h1 | h1
      · exact .inl ((mem_regKeys_cons x e rest).mpr (.inl h1))
      · rcases ih h1 with h2 | h2
        · exact .inl ((mem_regKeys_cons x e rest).mpr (.inr h2))
        · exact .inr h2

/-- Dict assignment preserves key uniqueness. -/
theorem nodup_regKeys_dictInsert (k : String) (v : SessionS) (st : RegState)
    (h : (regKeys st).Nodup) : (regKeys (dictInsert k v st)).Nodup := by
  induction st with
  | nil =>
    rw [dictInsert]
    exact (nodup_regKeys_cons (k, v) []).mpr (by simp [regKeys])
  | cons e rest ih =>
    have hn := (nodup_regKeys_cons e rest).mp h
    rw [dictInsert]
    by_cases hk : (e.1 == k) = true
    · have hk' : e.1 = k := by simpa using hk
      rw [if_pos hk]
      exact (nodup_regKeys_cons (k, v) rest).mpr ⟨hk' ▸ hn.1, hn.2⟩
    · have hk' : ¬ e.1 = k := fun hx => hk (by simp [hx])
      rw [if_neg hk]
      refine (nodup_regKeys_cons e (dictInsert k v rest)).mpr ⟨?_, ih hn.2⟩
      intro hmem
      rcases mem_regKeys_dictInsert e.1 k v rest hmem with h1 | h1
      · exact hn.1 h1
      · exact hk' h1

/-! ### Lemmas about the expiry sweep -/

/-- Unfolding of `unregisterFold` on a cons cell. -/
theorem unregisterFold_cons (t : String) (ts : List String) (p : World × RegState) :
    unregisterFold (t :: ts) p
      = unregisterFold ts
          ((unregister_cluster p.1 p.2 t).2.1, (unregister_cluster p.1 p.2 t).2.2) := rfl

/-- Unregistering tokens that all differ from the head entry's key leaves
the head in place and acts on the tail. -/
theorem unregisterFold_skip_head (ts : List String) :
    ∀ (w : World) (st : RegState) (e : String × SessionS),
      (∀ t ∈ ts, t ≠ e.1) →
      unregisterFold ts (w, e :: st)
        = ((unregisterFold ts (w, st)).1, e :: (unregisterFold ts (w, st)).2) := by
  induction ts with
  | nil => intro w st e _; rfl
  | cons t ts ih =>
    intro w st e h
    have hne : ¬ (e.1 == t) = true := by
      intro hx
      have hx' : e.1 = t := by simpa using hx
      exact h t (by simp) hx'.symm
    have hlc : lookupTok (e :: st) t = lookupTok st t := by
      rw [lookupTok_cons, if_neg hne]
    have hpc : popTok (e :: st) t = e :: popTok st t := by
      rw [popTok, if_neg hne]
    rw [unregisterFold_cons, unregisterFold_cons]
    cases hl : lookupTok st t with
    | none =>
      rw [show unregister_cluster w (e :: st) t = (false, w, e :: st) by
            rw [unregister_cluster, hlc, hl],
          show unregister_cluster w st t = (false, w, st) by
            rw [unregister_cluster, hl]]
      exact ih w st e (fun t' ht' => h t' (by simp [ht']))
    | some s =>
      rw [show unregister_cluster w (e :: st) t
            = (true, (SessionS.cleanup w s).1, e :: popTok st t) by
            rw [unregister_cluster, hlc, hl, hpc],
          show unregister_cluster w st t
            = (true, (SessionS.cleanup w s).1, popTok st t) by
            rw [unregister_cluster, hl]]
      exact ih (SessionS.cleanup w s).1 (popTok st t) e (fun t' ht' => h t' (by simp [ht']))

/-- Tokens collected by the sweep are keys of the table. -/
theorem mem_regKeys_of_mem_expiredTokens (now : ℚ) (st : RegState) (t : String)
    (h : t ∈ (st.filter (fun e => is_expired now e.2)).map (fun e => e.1)) :
    t ∈ regKeys st := by
  rcases List.mem_map.mp h with ⟨e, he, rfl⟩
  exact List.mem_map.mpr ⟨e, List.mem_of_mem_filter he, rfl⟩

/-- On a duplicate-free table, `_cleanup_expired_sessions` leaves exactly
the non-expired entries, in order. -/
theorem cleanup_state_eq_filter (now : ℚ) :
    ∀ (st : RegState) (w : World), (regKeys st).Nodup →
      (cleanup_expired_sessions now w st).2
        = st.filter (fun e => !(is_expired now e.2)) := by
  intro st
  induction st with
  | nil => intro w _; rfl
  | cons e rest ih =>
    intro w h
    have hn := (nodup_regKeys_cons e rest).mp h
    rw [cleanup_expired_sessions]
    cases hexp : is_expired now e.2 with
    | true =>
      have hcol : ((e :: rest).filter (fun x => is_expired now x.2)).map (fun x => x.1)
          = e.1 :: (rest.filter (fun x => is_expired now x.2)).map (fun x => x.1) := by
        rw [List.filter_cons_of_pos (by simpa using hexp)]; rfl
      have hlook : lookupTok (e :: rest) e.1 = some e.2 := by
        rw [lookupTok_cons, if_pos (by simp)]
      have hpop : popTok (e :: rest) e.1 = rest := by
        rw [popTok, if_pos (by simp)]
      rw [hcol, unregisterFold_cons,
        show unregister_cluster w (e :: rest) e.1
            = (true, (SessionS.cleanup w e.2).1, rest) by
          rw [unregister_cluster, hlook, hpop]]
      rw [show (∀ w', unregisterFold
            ((rest.filter (fun x => is_expired now x.2)).map (fun x => x.1)) (w', rest)
            = cleanup_expired_sessions now w' rest) from fun _ => rfl]
      rw [ih _ hn.2, List.filter_cons_of_neg (by simp [hexp])]
    | false =>
      have hcol : ((e :: rest).filter (fun x => is_expired now x.2)).map (fun x => x.1)
          = (rest.filter (fun x => is_expired now x.2)).map (fun x => x.1) := by
        rw [List.filter_cons_of_neg (by simp [hexp])]
      have hskip : ∀ t ∈ (rest.filter (fun x => is_expired now x.2)).map (fun x => x.1),
          t ≠ e.1 := by
        intro t ht hteq
        exact hn.1 (hteq ▸ mem_regKeys_of_mem_expiredTokens now rest t ht)
      rw [hcol, unregisterFold_skip_head _ w rest e hskip,
        show (∀ w', unregisterFold
            ((rest.filter (fun x => is_expired now x.2)).map (fun x => x.1)) (w', rest)
            = cleanup_expired_sessions now w' rest) from fun _ => rfl]
      rw [ih _ hn.2, List.filter_cons_of_pos (by simp [hexp])]

/-- The filtered table satisfies the invariant. -/
theorem noExpired_filter (now : ℚ) (st : RegState) :
    noExpired now (st.filter (fun e => !(is_expired now e.2))) := by
  intro e he
  have := List.of_mem_filter he
  simpa using this

/-- The sweep loop only ever removes entries. -/
theorem unregisterFold_sublist (ts : List String) :
    ∀ (w : World) (st : RegState), List.Sublist (unregisterFold ts (w, st)).2 st := by
  induction ts with
  | nil => intro w st; exact List.Sublist.refl st
  | cons t ts ih =>
    intro w st
    rw [unregisterFold_cons]
    cases hl : lookupTok st t with
    | none =>
      rw [show unregister_cluster w st t = (false, w, st) by rw [unregister_cluster, hl]]
      exact ih w st
    | some s =>
      rw [show unregister_cluster w st t
          = (true, (SessionS.cleanup w s).1, popTok st t) by rw [unregister_cluster, hl]]
      exact (ih _ _).trans (popTok_sublist st t)

/-! ### The extraction error messages all differ from the TTL message

(Needed to characterize exactly when `register_cluster` raises its TTL
`ValueError`.) -/

/-- Strings with different first characters differ. -/
theorem string_ne_of_head (a b : String) (h : a.data.head? ≠ b.data.head?) :
    a ≠ b := fun hEq => h (by rw [hEq])

/-- The head character of an append is the head of its nonempty left
part. -/
theorem head?_append_str (p q : String) (c : Char) (h : p.data.head? = some c) :
    (p ++ q).data.head? = some c := by
  rw [String.data_append]
  cases hp : p.data with
  | nil => rw [hp] at h; cases h
  | cons x xs =>
    rw [hp] at h
    rw [List.cons_append]
    simpa using h

/-- The head character of a double append. -/
theorem head?_append_append_str (p q r : String) (c : Char)
    (h : p.data.head? = some c) : (p ++ q ++ r).data.head? = some c :=
  head?_append_str (p ++ q) r c (head?_append_str p q c h)

/-- The context-not-found message is not the TTL message. -/
theorem ctxMsg_ne_ttl (n : String) :
    ("Context \x27" ++ n ++ "\x27 not found in kubeconfig") ≠ ttlMsg := by
  apply string_ne_of_head
  rw [head?_append_append_str "Context \x27" n "\x27 not found in kubeconfig" 'C' (by decide)]
  decide

/-- The current-context-not-found message is not the TTL message. -/
theorem curCtxMsg_ne_ttl (n : String) :
    ("Current context \x27" ++ n ++ "\x27 not found") ≠ ttlMsg := by
  apply string_ne_of_head
  rw [head?_append_append_str "Current context \x27" n "\x27 not found" 'C' (by decide)]
  decide

/-- The cluster-not-found message is not the TTL message. -/
theorem clusterMsg_ne_ttl (n : String) :
    ("Cluster \x27" ++ n ++ "\x27 not found in kubeconfig") ≠ ttlMsg := by
  apply string_ne_of_head
  rw [head?_append_append_str "Cluster \x27" n "\x27 not found in kubeconfig" 'C' (by decide)]
  decide

/-- The user-not-found message is not the TTL message. -/
theorem userMsg_ne_ttl (n : String) :
    ("User \x27" ++ n ++ "\x27 not found in kubeconfig") ≠ ttlMsg := by
  apply string_ne_of_head
  rw [head?_append_append_str "User \x27" n "\x27 not found in kubeconfig" 'U' (by decide)]
  decide

/-- The YAML-parse message is not the TTL message. -/
theorem yamlMsg_ne_ttl (e : String) :
    ("Invalid kubeconfig YAML: " ++ e) ≠ ttlMsg := by
  apply string_ne_of_head
  rw [head?_append_str "Invalid kubeconfig YAML: " e 'I' (by decide)]
  decide

/-- `resolveContext` never fails with the TTL message. -/
theorem resolveContext_error_ne_ttl (kc : Kubeconfig) (cn : Option String)
    (e : Err) (h : resolveContext kc cn = .error e) : e ≠ .valueError ttlMsg := by
  cases cn with
  | some n =>
    cases hf : kc.contexts.find? (fun ctx => ctx.name == n) with
    | some ctx => simp [resolveContext, hf] at h
    | none =>
      simp only [resolveContext, hf, Except.error.injEq] at h
      subst h
      intro hq
      injection hq with hm
      exact ctxMsg_ne_ttl n hm
  | none =>
    cases hc : kc.currentContext with
    | none =>
      simp only [resolveContext, hc, Except.error.injEq] at h
      subst h
      intro hq
      injection hq with hm
      exact absurd hm (by decide)
    | some cur =>
      cases hf : kc.contexts.find? (fun ctx => ctx.name == cur) with
      | some ctx => simp [resolveContext, hc, hf] at h
      | none =>
        simp only [resolveContext, hc, hf, Except.error.injEq] at h
        subst h
        intro hq
        injection hq with hm
        exact curCtxMsg_ne_ttl cur hm

/-- `resolveCa` never fails with the TTL message. -/
theorem resolveCa_error_ne_ttl (fs : FS) (ci : ClusterInfo) (e : Err)
    (h : resolveCa fs ci = .error e) : e ≠ .valueError ttlMsg := by
  cases hd : ci.certificateAuthorityData with
  | some d =>
    cases hdec : decodeB64Utf8 d with
    | some s => simp [resolveCa, hd, hdec] at h
    | none =>
      simp only [resolveCa, hd, hdec, Except.error.injEq] at h
      subst h
      intro hq
      injection hq with hm
      exact absurd hm (by decide)
  | none =>
    cases hf : ci.certificateAuthority with
    | some path =>
      cases hfs : fs path with
      | some content => simp [resolveCa, hd, hf, hfs] at h
      | none =>
        simp only [resolveCa, hd, hf, hfs, Except.error.injEq] at h
        subst h
        intro hq
        injection hq
    | none => simp [resolveCa, hd, hf] at h

/-- `resolveAuth` never fails with the TTL message. -/
theorem resolveAuth_error_ne_ttl (fs : FS) (ui : UserInfo) (e : Err)
    (h : resolveAuth fs ui = .error e) : e ≠ .valueError ttlMsg := by
  unfold resolveAuth at h
  repeat' split at h
  all_goals first
    | exact Except.noConfusion h
    | (injection h with h1; subst h1; intro hq; injection hq with hm; revert hm; decide)
    | (injection h with h1; subst h1; intro hq; injection hq)

/-- `extractCredentials` never fails with the TTL message. -/
theorem extract_error_ne_ttl (fs : FS) (kc : Kubeconfig) (cn : Option String)
    (e : Err) (h : extractCredentials fs kc cn = .error e) :
    e ≠ .valueError ttlMsg := by
  cases hrc : resolveContext kc cn with
  | error e0 =>
    simp only [extractCredentials, hrc, Except.error.injEq] at h
    exact h ▸ resolveContext_error_ne_ttl kc cn e0 hrc
  | ok context =>
    cases hcl : kc.clusters.find? (fun c => c.name == context.context.cluster) with
    | none =>
      simp only [extractCredentials, hrc, hcl, Except.error.injEq] at h
      subst h
      intro hq
      injection hq with hm
      exact clusterMsg_ne_ttl _ hm
    | some cluster =>
      cases hus : kc.users.find? (fun u => u.name == context.context.user) with
      | none =>
        simp only [extractCredentials, hrc, hcl, hus, Except.error.injEq] at h
        subst h
        intro hq
        injection hq with hm
        exact userMsg_ne_ttl _ hm
      | some user =>
        cases hsv : cluster.cluster.server with
        | none =>
          simp only [extractCredentials, hrc, hcl, hus, hsv, Except.error.injEq] at h
          subst h
          intro hq
          injection hq
        | some api_server =>
          cases hca : resolveCa fs cluster.cluster with
          | error e1 =>
            simp only [extractCredentials, hrc, hcl, hus, hsv, hca,
              Except.error.injEq] at h
            exact h ▸ resolveCa_error_ne_ttl fs cluster.cluster e1 hca
          | ok ca =>
            cases hau : resolveAuth fs user.user with
            | error e2 =>
              simp only [extractCredentials, hrc, hcl, hus, hsv, hca, hau,
                Except.error.injEq] at h
              exact h ▸ resolveAuth_error_ne_ttl fs user.user e2 hau
            | ok triple =>
              simp [extractCredentials, hrc, hcl, hus, hsv, hca, hau] at h

/-! ### Claim C1 -/

/-- C1 (counterexample): the claim says `register` fails with
`ValidationError` for `ttlHours ≤ 0`, but `register_cluster` has no lower
bound check: a call with `ttl_hours = 0` succeeds, returns the token, and
stores the session. -/
theorem register_ttl_lower_bound_counterexample :
    (register_cluster 1 fs0 "tok1" w0 [] "c" (Except.ok kc4) (some "ctx-a") 0).1
      = Except.ok "tok1"
    ∧ lookupTok (register_cluster 1 fs0 "tok1" w0 [] "c"
        (Except.ok kc4) (some "ctx-a") 0).2.2 "tok1"
      = some { session_token := "tok1", cluster_name := "c", credentials := cred0,
               expires_at := 1, created_at := 1, k8s_client := none } := by
  constructor
  · rfl
  · with_unfolding_all rfl

/-- C1 (amended): `register_cluster` raises its TTL `ValueError` exactly
when `ttl_hours > 168` (so `ttl_hours = 168` passes validation), and in
that case nothing is inserted; there is no lower-bound check, so
`ttl_hours ≤ 0` is not rejected. -/
theorem register_ttl_validation (now : ℚ) (fs : FS) (ntk : String) (w : World)
    (st : RegState) (cn : String) (kcp : Except String Kubeconfig)
    (ctx : Option String) (ttl : ℚ) :
    ((register_cluster now fs ntk w st cn kcp ctx ttl).1
        = Except.error (Err.valueError ttlMsg) ↔ 168 < ttl)
    ∧ (168 < ttl →
        register_cluster now fs ntk w st cn kcp ctx ttl
          = (Except.error (Err.valueError ttlMsg), w, st)) := by
  by_cases hgt : (168 : ℚ) < ttl
  · refine ⟨⟨fun _ => hgt, fun _ => ?_⟩, fun _ => ?_⟩
    · rw [register_cluster.eq_def, if_pos hgt]
    · rw [register_cluster.eq_def, if_pos hgt]
  · refine ⟨⟨fun h => ?_, fun h => absurd h hgt⟩, fun h => absurd h hgt⟩
    rw [register_cluster.eq_def, if_neg hgt] at h
    cases kcp with
    | error e =>
      simp only [] at h
      injection h with h1
      injection h1 with h2
      exact absurd h2 (yamlMsg_ne_ttl e)
    | ok kc =>
      simp only [] at h
      cases hx : extractCredentials fs kc ctx with
      | error e0 =>
        rw [hx] at h
        simp only [] at h
        injection h with h1
        exact absurd h1 (extract_error_ne_ttl fs kc ctx e0 hx)
      | ok credentials =>
        rw [hx] at h
        simp only [] at h
        exact Except.noConfusion h

/-- C1 (witness): at `ttl_hours = 169` on a nonempty registry the TTL
`ValueError` is raised and the table is untouched. -/
theorem register_ttl_validation_witness :
    (168 : ℚ) < 169
    ∧ register_cluster 1 fs0 "tok1" w0 [("a", s0)] "c"
        (Except.ok kc4) (some "ctx-a") 169
      = (Except.error (Err.valueError ttlMsg), w0, [("a", s0)]) :=
  ⟨by norm_num,
   (register_ttl_validation 1 fs0 "tok1" w0 [("a", s0)] "c"
      (Except.ok kc4) (some "ctx-a") 169).2 (by norm_num)⟩

/-! ### Claim C6 -/

/-- C6 (counterexample): on a document whose resolved cluster entry lacks
the `server` key, extraction fails with a `KeyError`, which is not the
`ValueError` type used for the other configuration faults. -/
theorem extract_missing_server_counterexample :
    extractCredentials fs0 kc6 (some "ctx-a") = Except.error (Err.keyError "server")
    ∧ Err.isValueError (Err.keyError "server") = false :=
  ⟨rfl, rfl⟩

/-- C6 (amended): whenever the context resolves and the referenced cluster
and user entries exist but the cluster entry has no `server` key,
`extractCredentials` fails with `KeyError "server"` (the bare dict access
of line 175), not with the `ValueError` used for other configuration
faults. -/
theorem extract_missing_server_keyerror (fs : FS) (kc : Kubeconfig)
    (cn : Option String) (ctxE : ContextEntry) (clE : ClusterEntry) (uE : UserEntry)
    (h1 : resolveContext kc cn = Except.ok ctxE)
    (h2 : kc.clusters.find? (fun c => c.name == ctxE.context.cluster) = some clE)
    (h3 : kc.users.find? (fun u => u.name == ctxE.context.user) = some uE)
    (h4 : clE.cluster.server = none) :
    extractCredentials fs kc cn = Except.error (Err.keyError "server") := by
  simp only [extractCredentials, h1, h2, h3, h4]

/-- C6 (witness): the amended statement evaluated on the concrete
fixture. -/
theorem extract_missing_server_keyerror_witness :
    extractCredentials fs0 kc6 (some "ctx-a") = Except.error (Err.keyError "server") :=
  extract_missing_server_keyerror fs0 kc6 (some "ctx-a")
    ⟨"ctx-a", ⟨"prod", "svc", none⟩⟩ ⟨"prod", ⟨none, none, none⟩⟩
    ⟨"svc", ⟨some "abc", none, none, none, none⟩⟩ rfl rfl rfl rfl

/-! ### Claim C7 -/

/-- C7: registration is atomic on failure — whenever `register_cluster`
fails (TTL rejected, kubeconfig unparsable, or credential extraction
failed), the whole result is the error together with the unchanged world
and the unchanged session table: no partial session is inserted. -/
theorem register_error_atomic (now : ℚ) (fs : FS) (ntk : String) (w : World)
    (st : RegState) (cn : String) (kcp : Except String Kubeconfig)
    (ctx : Option String) (ttl : ℚ) (e : Err)
    (h : (register_cluster now fs ntk w st cn kcp ctx ttl).1 = Except.error e) :
    register_cluster now fs ntk w st cn kcp ctx ttl = (Except.error e, w, st) := by
  by_cases hgt : (168 : ℚ) < ttl
  · rw [register_cluster.eq_def, if_pos hgt] at h ⊢
    simp only [] at h
    injection h with h1
    rw [h1]
  · rw [register_cluster.eq_def, if_neg hgt] at h ⊢
    cases kcp with
    | error e0 =>
      simp only [] at h
      simp only []
      injection h with h1
      rw [h1]
    | ok kc =>
      simp only [] at h
      simp only []
      cases hx : extractCredentials fs kc ctx with
      | error e1 =>
        rw [hx] at h
        simp only [] at h
        injection h with h1
        rw [h1]
      | ok credentials =>
        rw [hx] at h
        simp only [] at h
        exact Except.noConfusion h

/-- C7 (witness): a registration with an unknown context fails and leaves
the table exactly as it was. -/
theorem register_error_atomic_witness :
    register_cluster 1 fs0 "tok1" w0 [("a", s0)] "c"
        (Except.ok kc4) (some "nope") 24
      = (Except.error (Err.valueError
          ("Context \x27" ++ "nope" ++ "\x27 not found in kubeconfig")),
         w0, [("a", s0)]) :=
  register_error_atomic 1 fs0 "tok1" w0 [("a", s0)] "c"
    (Except.ok kc4) (some "nope") 24
    (Err.valueError ("Context \x27" ++ "nope" ++ "\x27 not found in kubeconfig"))
    rfl

/-- The keys of a popped table form a sublist of the original keys. -/
theorem regKeys_popTok_sublist (st : RegState) (tok : String) :
    List.Sublist (regKeys (popTok st tok)) (regKeys st) := by
  unfold regKeys
  exact List.Sublist.map _ (popTok_sublist st tok)

/-- The key of a stored entry is among the table's keys. -/
theorem mem_regKeys_of_mem (e : String × SessionS) (st : RegState)
    (h : e ∈ st) : e.1 ∈ regKeys st :=
  List.mem_map_of_mem (fun x => x.1) h

/-! ### Claim C2 -/

/-- C2 (counterexample): the claimed invariant fails for `get`: with an
expired session stored under `"a"`, `get_session` on the unrelated token
`"b"` completes and leaves the expired entry in the mapping. -/
theorem sweep_invariant_counterexample :
    is_expired 1 s0 = true
    ∧ (get_session 1 w0 [("a", s0)] "b").2.2 = [("a", s0)]
    ∧ ¬ noExpired 1 ((get_session 1 w0 [("a", s0)] "b").2.2) := by
  refine ⟨by decide, rfl, ?_⟩
  intro h
  have hm : ("a", s0) ∈ (get_session 1 w0 [("a", s0)] "b").2.2 := by
    rw [show (get_session 1 w0 [("a", s0)] "b").2.2 = [("a", s0)] from rfl]
    exact List.mem_singleton.mpr rfl
  exact absurd (h ("a", s0) hm) (by decide)

/-- C2 (amended): on a duplicate-free table, a successful `register` and
any `list` leave no expired entry behind (they run the full sweep), while
`get` only guarantees that the queried token no longer maps to an expired
entry, and `unregister` only removes the given token — expired entries
under other tokens may survive `get`/`unregister`. -/
theorem registry_sweep_amended (now : ℚ) (fs : FS) (ntk : String) (w : World)
    (st : RegState) (cn : String) (kcp : Except String Kubeconfig)
    (ctx : Option String) (ttl : ℚ) (tok : String)
    (hnd : (regKeys st).Nodup) :
    (∀ tk, (register_cluster now fs ntk w st cn kcp ctx ttl).1 = Except.ok tk →
        noExpired now (register_cluster now fs ntk w st cn kcp ctx ttl).2.2)
    ∧ noExpired now (list_sessions now w st).2.2
    ∧ (∀ s, lookupTok (get_session now w st tok).2.2 tok = some s →
        is_expired now s = false)
    ∧ lookupTok (unregister_cluster w st tok).2.2 tok = none := by
  refine ⟨?_, ?_, ?_, ?_⟩
  · intro tk hok
    by_cases hgt : (168 : ℚ) < ttl
    · rw [register_cluster.eq_def, if_pos hgt] at hok
      simp only [] at hok
      exact Except.noConfusion hok
    · rw [register_cluster.eq_def, if_neg hgt] at hok ⊢
      cases kcp with
      | error e =>
        simp only [] at hok
        exact Except.noConfusion hok
      | ok kc =>
        simp only [] at hok ⊢
        cases hx : extractCredentials fs kc ctx with
        | error e =>
          rw [hx] at hok
          simp only [] at hok
          exact Except.noConfusion hok
        | ok credentials =>
          simp only []
          rw [cleanup_state_eq_filter now _ w (nodup_regKeys_dictInsert ntk _ st hnd)]
          exact noExpired_filter now _
  · simp only [list_sessions]
    rw [cleanup_state_eq_filter now st w hnd]
    exact noExpired_filter now st
  · intro s hs
    cases hl : lookupTok st tok with
    | none =>
      simp only [get_session, hl] at hs
      exact Option.noConfusion hs
    | some s1 =>
      cases hexp : is_expired now s1 with
      | true =>
        simp only [get_session, hl, hexp, if_true, unregister_cluster] at hs
        rw [lookupTok_popTok_self st tok hnd] at hs
        exact Option.noConfusion hs
      | false =>
        simp [get_session, hl, hexp] at hs
        rw [← hs]
        exact hexp
  · cases hl : lookupTok st tok with
    | none => simp only [unregister_cluster, hl]
    | some s1 =>
      simp only [unregister_cluster, hl]
      exact lookupTok_popTok_self st tok hnd

/-- C2 (witness): the amended theorem applied to a concrete one-entry
table. -/
theorem registry_sweep_amended_witness :
    noExpired 1 (list_sessions 1 w0 [("a", s0)]).2.2
    ∧ lookupTok (unregister_cluster w0 [("a", s0)] "a").2.2 "a" = none :=
  ⟨(registry_sweep_amended 1 fs0 "t" w0 [("a", s0)] "c" (Except.ok kc4)
      (some "ctx-a") 24 "a" (by decide)).2.1,
   (registry_sweep_amended 1 fs0 "t" w0 [("a", s0)] "c" (Except.ok kc4)
      (some "ctx-a") 24 "a" (by decide)).2.2.2⟩

/-! ### Claim C3 -/

/-- C3: on a duplicate-free, key-coherent table, `get` on an expired token
returns not-found, removes the entry (a later lookup and a later `list`
no longer see the token), and the not-found result is the very value
returned for a token that was never registered. -/
theorem get_expired_token_removed (now : ℚ) (w : World) (st st2 : RegState)
    (tok tok2 : String) (s : SessionS)
    (hnd : (regKeys st).Nodup)
    (hcoh : ∀ e ∈ st, e.2.session_token = e.1)
    (hl : lookupTok st tok = some s)
    (hexp : is_expired now s = true)
    (habs : lookupTok st2 tok2 = none) :
    (get_session now w st tok).1 = none
    ∧ lookupTok (get_session now w st tok).2.2 tok = none
    ∧ tok ∉ ((list_sessions now (get_session now w st tok).2.1
        (get_session now w st tok).2.2).1.map (fun d => d.session_token))
    ∧ (get_session now w st2 tok2).1 = (get_session now w st tok).1 := by
  have hstate : (get_session now w st tok).2.2 = popTok st tok := by
    simp [get_session, hl, hexp, unregister_cluster]
  have hres : (get_session now w st tok).1 = none := by
    simp [get_session, hl, hexp]
  have hmiss : lookupTok (popTok st tok) tok = none :=
    lookupTok_popTok_self st tok hnd
  refine ⟨hres, ?_, ?_, ?_⟩
  · rw [hstate]
    exact hmiss
  · rw [hstate]
    have hndp : (regKeys (popTok st tok)).Nodup :=
      List.Nodup.sublist (regKeys_popTok_sublist st tok) hnd
    simp only [list_sessions]
    rw [cleanup_state_eq_filter now (popTok st tok) _ hndp]
    intro hmem
    obtain ⟨d, hd, hds⟩ := List.mem_map.mp hmem
    obtain ⟨e, he, hde⟩ := List.mem_map.mp hd
    have hepop : e ∈ popTok st tok := List.mem_of_mem_filter he
    have hest : e ∈ st := (popTok_sublist st tok).subset hepop
    have hkey : e.2.session_token = e.1 := hcoh e hest
    have htok : e.1 = tok := by
      rw [← hkey]
      rw [← hde] at hds
      exact hds
    have hmem2 : e.1 ∈ regKeys (popTok st tok) := mem_regKeys_of_mem e _ hepop
    rw [htok] at hmem2
    exact (lookupTok_eq_none_iff (popTok st tok) tok).mp hmiss hmem2
  · rw [hres]
    simp [get_session, habs]

/-- C3 (witness): the theorem evaluated on a one-entry table holding an
expired session, compared with the empty (never-registered) table. -/
theorem get_expired_token_removed_witness :
    (get_session 1 w0 [("a", s0)] "a").1 = none
    ∧ lookupTok (get_session 1 w0 [("a", s0)] "a").2.2 "a" = none
    ∧ "a" ∉ ((list_sessions 1 (get_session 1 w0 [("a", s0)] "a").2.1
        (get_session 1 w0 [("a", s0)] "a").2.2).1.map (fun d => d.session_token))
    ∧ (get_session 1 w0 ([] : RegState) "z").1 = (get_session 1 w0 [("a", s0)] "a").1 :=
  get_expired_token_removed 1 w0 [("a", s0)] [] "a" "z" s0
    (by decide) (by decide) (by decide) (by decide) (by decide)

/-! ### Claim C4 -/

/-- C4: a document containing context `ctx-a` (no namespace field)
referencing cluster `prod` at `https://10.0.0.1:6443` with inline base64
CA data and user `svc` with bearer token `abc` extracts to the bundle with
that endpoint, token `abc`, the base64-decoded CA material, and namespace
`"default"`. -/
theorem extract_ctx_a_bundle (fs : FS) (kc : Kubeconfig)
    (caData caText : String) (caFile : Option String) (ui : UserInfo)
    (h1 : kc.contexts.find? (fun c => c.name == "ctx-a")
        = some ⟨"ctx-a", ⟨"prod", "svc", none⟩⟩)
    (h2 : kc.clusters.find? (fun c => c.name == "prod")
        = some ⟨"prod", ⟨some "https://10.0.0.1:6443", some caData, caFile⟩⟩)
    (h3 : decodeB64Utf8 caData = some caText)
    (h4 : kc.users.find? (fun u => u.name == "svc") = some ⟨"svc", ui⟩)
    (h5 : ui.token = some "abc") :
    extractCredentials fs kc (some "ctx-a")
      = Except.ok { api_server := "https://10.0.0.1:6443", token := "abc",
                    ca_certificate := caText, nspace := "default",
                    client_cert := "", client_key := "" } := by
  simp only [extractCredentials, resolveContext, resolveCa, resolveAuth,
    h1, h2, h3, h4, h5, Option.getD]

/-- C4 (witness): the theorem evaluated on a concrete document whose CA
data `"aGVsbG8="` decodes to `"hello"`. -/
theorem extract_ctx_a_bundle_witness :
    extractCredentials fs0
      { contexts := [⟨"ctx-a", ⟨"prod", "svc", none⟩⟩],
        clusters := [⟨"prod", ⟨some "https://10.0.0.1:6443", some "aGVsbG8=", none⟩⟩],
        users := [⟨"svc", ⟨some "abc", none, none, none, none⟩⟩],
        currentContext := none } (some "ctx-a")
      = Except.ok { api_server := "https://10.0.0.1:6443", token := "abc",
                    ca_certificate := "hello", nspace := "default",
                    client_cert := "", client_key := "" } :=
  extract_ctx_a_bundle fs0
    { contexts := [⟨"ctx-a", ⟨"prod", "svc", none⟩⟩],
      clusters := [⟨"prod", ⟨some "https://10.0.0.1:6443", some "aGVsbG8=", none⟩⟩],
      users := [⟨"svc", ⟨some "abc", none, none, none, none⟩⟩],
      currentContext := none }
    "aGVsbG8=" "hello" none ⟨some "abc", none, none, none, none⟩
    rfl rfl (by decide) rfl rfl

/-! ### Claim C5 -/

/-- C5: auth-method precedence — whenever the resolved user record
carries a bearer token and additionally an inline client
certificate/key pair, extraction returns the bearer token and leaves both
client certificate fields empty (the `if "token" in user_info` branch of
lines 194-195 wins and the `elif` pair branch is never taken). -/
theorem extract_token_precedence (fs : FS) (kc : Kubeconfig)
    (cn : Option String) (ctxE : ContextEntry) (clE : ClusterEntry)
    (uname : String) (ui : UserInfo) (srv ca t cd kd : String)
    (h1 : resolveContext kc cn = Except.ok ctxE)
    (h2 : kc.clusters.find? (fun c => c.name == ctxE.context.cluster) = some clE)
    (h3 : kc.users.find? (fun u => u.name == ctxE.context.user) = some ⟨uname, ui⟩)
    (h4 : clE.cluster.server = some srv)
    (h5 : resolveCa fs clE.cluster = Except.ok ca)
    (h6 : ui.token = some t)
    (_h7 : ui.clientCertificateData = some cd)
    (_h8 : ui.clientKeyData = some kd) :
    extractCredentials fs kc cn
      = Except.ok { api_server := srv, token := t, ca_certificate := ca,
                    nspace := ctxE.context.nspace.getD "default",
                    client_cert := "", client_key := "" } := by
  simp only [extractCredentials, resolveAuth, h1, h2, h3, h4, h5, h6]

/-- C5 (witness): a concrete user record carrying both a bearer token and
an inline certificate/key pair yields the token and empty certificate
fields. -/
theorem extract_token_precedence_witness :
    extractCredentials fs0
      { contexts := [⟨"ctx-a", ⟨"prod", "svc", none⟩⟩],
        clusters := [⟨"prod", ⟨some "https://10.0.0.1:6443", none, none⟩⟩],
        users := [⟨"svc", ⟨some "abc", some "QUFB", some "QkJC", none, none⟩⟩],
        currentContext := none } (some "ctx-a")
      = Except.ok { api_server := "https://10.0.0.1:6443", token := "abc",
                    ca_certificate := "", nspace := "default",
                    client_cert := "", client_key := "" } :=
  extract_token_precedence fs0
    { contexts := [⟨"ctx-a", ⟨"prod", "svc", none⟩⟩],
      clusters := [⟨"prod", ⟨some "https://10.0.0.1:6443", none, none⟩⟩],
      users := [⟨"svc", ⟨some "abc", some "QUFB", some "QkJC", none, none⟩⟩],
      currentContext := none }
    (some "ctx-a") ⟨"ctx-a", ⟨"prod", "svc", none⟩⟩
    ⟨"prod", ⟨some "https://10.0.0.1:6443", none, none⟩⟩
    "svc" ⟨some "abc", some "QUFB", some "QkJC", none, none⟩
    "https://10.0.0.1:6443" "" "abc" "QUFB" "QkJC"
    rfl rfl rfl rfl rfl rfl rfl rfl

/-! ### Claims C8-C10: the per-session client handle -/

/-- Unfolding of `get_calls` on a successor. -/
theorem get_calls_succ (n : Nat) (w : World) (s : SessionS) :
    get_calls (n + 1) w s
      = ((get_k8s_client w s).1.cid ::
          (get_calls n (get_k8s_client w s).2.1 (get_k8s_client w s).2.2).1,
         (get_calls n (get_k8s_client w s).2.1 (get_k8s_client w s).2.2).2) := rfl

/-- After one accessor call the session is a fixed point of the
accessor. -/
theorem get_k8s_client_stable (w : World) (s : SessionS) :
    get_k8s_client (get_k8s_client w s).2.1 (get_k8s_client w s).2.2
      = get_k8s_client w s := by
  cases h : s.k8s_client with
  | some c => simp [get_k8s_client, h]
  | none => simp [get_k8s_client, h]

/-- Every call in a sequence returns the handle of the first call, and the
state stops changing after the first call. -/
theorem get_calls_replicate (n : Nat) : ∀ (w : World) (s : SessionS),
    get_calls (n + 1) w s
      = (List.replicate (n + 1) (get_k8s_client w s).1.cid, (get_k8s_client w s).2) := by
  induction n with
  | zero => intro w s; rfl
  | succ n ih =>
    intro w s
    rw [get_calls_succ, ih (get_k8s_client w s).2.1 (get_k8s_client w s).2.2,
      get_k8s_client_stable w s]
    rfl

/-- The accessor allocates at most one object identity. -/
theorem get_k8s_client_nextId_le (w : World) (s : SessionS) :
    (get_k8s_client w s).2.1.nextId ≤ w.nextId + 1 := by
  cases h : s.k8s_client with
  | some c => simp [get_k8s_client, h]
  | none => simp [get_k8s_client, h]

/-- On first use the accessor builds the client from the session's
credentials, with an empty `_api_client` slot. -/
theorem get_k8s_client_fresh (w : World) (s : SessionS)
    (h : s.k8s_client = none) :
    (get_k8s_client w s).1
      = { cid := w.nextId, credentials := s.credentials, api_client := none } := by
  simp [get_k8s_client, h]

/-- C8: client-handle memoization — in any sequence of `n+1` sequential
accessor calls, every call returns the handle constructed by the first
call (`n+1` copies of one identity), the allocation counter grows by at
most one (construction happens at most once), and on a fresh session the
first call constructs the handle from the session's credentials. -/
theorem session_client_memoized (n : Nat) (w : World) (s : SessionS) :
    get_calls (n + 1) w s
      = (List.replicate (n + 1) (get_k8s_client w s).1.cid, (get_k8s_client w s).2)
    ∧ (get_k8s_client w s).2.1.nextId ≤ w.nextId + 1
    ∧ (s.k8s_client = none →
        (get_k8s_client w s).1
          = { cid := w.nextId, credentials := s.credentials, api_client := none }) :=
  ⟨get_calls_replicate n w s, get_k8s_client_nextId_le w s, get_k8s_client_fresh w s⟩

/-- C8 (witness): two consecutive accessor calls on a fresh session return
the single constructed handle. -/
theorem session_client_memoized_witness :
    get_calls 2 w0 s0
      = (List.replicate 2 (get_k8s_client w0 s0).1.cid, (get_k8s_client w0 s0).2)
    ∧ (get_k8s_client w0 s0).1
      = { cid := 0, credentials := cred0, api_client := none } :=
  ⟨(session_client_memoized 1 w0 s0).1, (session_client_memoized 1 w0 s0).2.2 rfl⟩

/-- C9: `cleanup` is idempotent — a second call changes nothing, a call on
a session that never constructed a handle is the identity (and raises
nothing: it is total), and across any cleanup the transport pool is
released at most once. -/
theorem session_cleanup_idempotent (w : World) (s : SessionS) :
    SessionS.cleanup (SessionS.cleanup w s).1 (SessionS.cleanup w s).2
      = SessionS.cleanup w s
    ∧ (s.k8s_client = none → SessionS.cleanup w s = (w, s))
    ∧ (SessionS.cleanup w s).1.poolsReleased ≤ w.poolsReleased + 1 := by
  obtain ⟨tok, cn, cr, ea, ca, slot⟩ := s
  cases slot with
  | none => exact ⟨rfl, fun _ => rfl, Nat.le_succ _⟩
  | some c =>
    obtain ⟨cid, ccr, api⟩ := c
    cases api with
    | none => exact ⟨rfl, fun h => Option.noConfusion h, Nat.le_succ _⟩
    | some a =>
      obtain ⟨cfg, live⟩ := a
      cases live with
      | false => exact ⟨rfl, fun h => Option.noConfusion h, Nat.le_succ _⟩
      | true => exact ⟨rfl, fun h => Option.noConfusion h, Nat.le_refl _⟩

/-- C9 (witness): cleanup of a session that never constructed a handle is
the identity, and the release bound holds there. -/
theorem session_cleanup_idempotent_witness :
    SessionS.cleanup w0 s0 = (w0, s0)
    ∧ (SessionS.cleanup w0 s0).1.poolsReleased ≤ w0.poolsReleased + 1 :=
  ⟨(session_cleanup_idempotent w0 s0).2.1 rfl, (session_cleanup_idempotent w0 s0).2.2⟩

/-- C10: cleanup never clears the memoized slot — after `cleanup` the
session still holds the (closed) handle with the same identity, a later
accessor call returns exactly that handle without constructing a fresh
one, and the registry operations `get`/`unregister`/`list` only ever
remove whole entries (their post-state is a sublist of the pre-state), so
none of them resets a stored session's slot. -/
theorem cleanup_preserves_client_slot (now : ℚ) (w w2 : World) (st : RegState)
    (tok : String) (s : SessionS) (c : DynamicK8sClient)
    (h : s.k8s_client = some c) :
    (SessionS.cleanup w s).2.k8s_client = some (DynamicK8sClient.close w c).2
    ∧ (DynamicK8sClient.close w c).2.cid = c.cid
    ∧ get_k8s_client (SessionS.cleanup w s).1 (SessionS.cleanup w s).2
        = ((DynamicK8sClient.close w c).2,
           (SessionS.cleanup w s).1, (SessionS.cleanup w s).2)
    ∧ List.Sublist (get_session now w2 st tok).2.2 st
    ∧ List.Sublist (unregister_cluster w2 st tok).2.2 st
    ∧ List.Sublist (list_sessions now w2 st).2.2 st := by
  refine ⟨?_, ?_, ?_, ?_, ?_, ?_⟩
  · simp [SessionS.cleanup, h]
  · cases hac : c.api_client <;> simp [DynamicK8sClient.close, hac]
  · simp [SessionS.cleanup, h, get_k8s_client]
  · cases hl : lookupTok st tok with
    | none => simp [get_session, hl]
    | some s1 =>
      cases hexp : is_expired now s1 with
      | true =>
        simp only [get_session, hl, hexp, if_true, unregister_cluster]
        exact popTok_sublist st tok
      | false => simp [get_session, hl, hexp]
  · cases hl : lookupTok st tok with
    | none => simp [unregister_cluster, hl]
    | some s1 =>
      simp only [unregister_cluster, hl]
      exact popTok_sublist st tok
  · simp only [list_sessions, cleanup_expired_sessions]
    exact unregisterFold_sublist _ w2 st

/-- C10 (witness): the theorem evaluated on a session holding a
materialized client, against a concrete one-entry registry. -/
theorem cleanup_preserves_client_slot_witness :
    (SessionS.cleanup w0 sW).2.k8s_client = some (DynamicK8sClient.close w0 clientW).2
    ∧ (DynamicK8sClient.close w0 clientW).2.cid = clientW.cid
    ∧ get_k8s_client (SessionS.cleanup w0 sW).1 (SessionS.cleanup w0 sW).2
        = ((DynamicK8sClient.close w0 clientW).2,
           (SessionS.cleanup w0 sW).1, (SessionS.cleanup w0 sW).2)
    ∧ List.Sublist (get_session 1 w0 [("a", s0)] "a").2.2 [("a", s0)]
    ∧ List.Sublist (unregister_cluster w0 [("a", s0)] "a").2.2 [("a", s0)]
    ∧ List.Sublist (list_sessions 1 w0 [("a", s0)]).2.2 [("a", s0)] :=
  cleanup_preserves_client_slot 1 w0 w0 [("a", s0)] "a" sW clientW rfl

end K8sAi
